import Mathlib

/-!
Verification of the chat-relay server (`src/server.py`).

The server receives a `message` event carrying a payload whose `text` field
is the user utterance.  The handler trims the text; a blank result is
ignored.  Otherwise the lowercased text is looked up in the canned-response
table; on a miss an outbound completion call is made (only if the API key
is configured), with timeout 20, and every failure class is translated to a
fixed apology string.  Finally the reply is emitted back to the sending
session if and only if the computed reply text is non-empty (the Python
code guards the emit with `if response_text:`).

The outbound HTTP call is external, so it is passed in as an oracle value
`CallOutcome` describing what the single `requests.post` attempt did:
timed out, raised a transport/HTTP error (`requests.exceptions.
RequestException`, which `raise_for_status` raises for non-2xx statuses),
or produced a parsed JSON body.  The body is modelled only as far as the
handler inspects it: whether the object is falsy, whether it has a
`choices` key, and for each choice whether `choice["message"]["content"]`
is present as a string (when it is absent, the Python code raises a
`KeyError` that falls into the generic `except Exception` handler).
-/

namespace Server

/-- Python `str.strip()`: remove leading and trailing whitespace.
(Defined over the character list so that it evaluates by kernel
reduction.) -/
def pyStrip (s : String) : String :=
  ⟨((s.data.dropWhile Char.isWhitespace).reverse.dropWhile Char.isWhitespace).reverse⟩

/-- Python `str.lower()`: lowercase every character. -/
def pyLower (s : String) : String :=
  ⟨s.data.map Char.toLower⟩

/-- Log severities used by the handler. -/
inductive LogLevel where
  | info
  | warning
  | error
  | critical
deriving DecidableEq, Repr

/-- One log line: a severity and a short message. -/
structure LogEntry where
  level : LogLevel
  msg : String
deriving DecidableEq, Repr

/-- The canned-response table of `server.py` (lines 58-66), in source order. -/
def canned_responses : List (String × String) :=
  [("hello", "Greetings. How may I be of service?"),
   ("how are you", "As well as can be expected, given the circumstances. And you?"),
   ("what is the time", "One moment, I shall consult the chronometer."),
   ("tell me a secret", "A good butler keeps his secrets, sir."),
   ("what do you know about spain",
    "Spain, a land of rich history and vibrant culture. A fascinating place indeed."),
   ("goodnight", "Sleep well, master. May your rest be undisturbed."),
   ("thank you", "You are most welcome, sir.")]

/-- Dictionary lookup `canned_responses[k]` (first matching key). -/
def cannedLookup (k : String) : Option String :=
  (canned_responses.find? (fun p => p.1 == k)).map (fun p => p.2)

/-- One element of the `choices` array of the completion response.
`content = some s` models `choice["message"]["content"] = s`;
`content = none` models a choice whose `message`/`content` access raises
`KeyError` (key absent). -/
structure Choice where
  content : Option String
deriving DecidableEq, Repr

/-- The parsed JSON body of a received completion response, modelled as far
as lines 139-144 inspect it.  `falsy` is a body for which
`if response_data` fails (e.g. `null` or `{}`); `noChoices` is a truthy
object without a `choices` key; `choices cs` is an object whose `choices`
key holds the array `cs`. -/
inductive RespBody where
  | falsy
  | noChoices
  | choices (cs : List Choice)
deriving DecidableEq, Repr

/-- Outcome of the single `requests.post` attempt (lines 134-137):
it may time out (`requests.exceptions.Timeout`), raise a transport/HTTP
error carrying a diagnostic string (`requests.exceptions.RequestException`,
including the `HTTPError` from `raise_for_status` on non-2xx), or deliver a
parsed body. -/
inductive CallOutcome where
  | timeout
  | requestError (diag : String)
  | success (body : RespBody)
deriving DecidableEq, Repr

/-- Line 115: reply when `OPENAI_API_KEY` is not configured. -/
def notConfiguredReply : String :=
  "Master, the external service key is not configured."

/-- Line 143: reply for an unexpected response format. -/
def uninterpretableReply : String :=
  "Forgive me, master, the external service returned an uninterpretable response."

/-- Line 147: reply when the outbound request times out. -/
def timeoutReply : String :=
  "Master, the external service took too long to respond. Pray, try again."

/-- Line 150: reply for a `RequestException`, embedding the diagnostic. -/
def requestErrorReply (diag : String) : String :=
  "I encountered an issue contacting the external service, master: " ++ diag

/-- Line 153: reply for any other unexpected exception. -/
def internalErrorReply : String :=
  "An unexpected internal error has occurred, master."

/-- Lines 135-154: translation of the outcome of the outbound call into
`response_text`.  On a delivered body, lines 139-144 check
`response_data and 'choices' in response_data and response_data['choices']`;
when the check passes, line 140 evaluates
`response_data['choices'][0]['message']['content'].strip()` - if the first
choice lacks `message`/`content` the `KeyError` is caught by the generic
`except Exception` handler of lines 152-154. -/
def handleOutcome : CallOutcome → String
  | CallOutcome.timeout => timeoutReply
  | CallOutcome.requestError diag => requestErrorReply diag
  | CallOutcome.success RespBody.falsy => uninterpretableReply
  | CallOutcome.success RespBody.noChoices => uninterpretableReply
  | CallOutcome.success (RespBody.choices []) => uninterpretableReply
  | CallOutcome.success (RespBody.choices (c :: _)) =>
      match c.content with
      | some s => pyStrip s
      | none => internalErrorReply

/-- Log line produced by each outcome branch (lines 141, 144, 148, 151, 154). -/
def outcomeLog : CallOutcome → LogEntry
  | CallOutcome.timeout => ⟨LogLevel.error, "OpenAI API request timed out."⟩
  | CallOutcome.requestError diag => ⟨LogLevel.error, "Error calling OpenAI API: " ++ diag⟩
  | CallOutcome.success RespBody.falsy =>
      ⟨LogLevel.error, "OpenAI API returned unexpected response format"⟩
  | CallOutcome.success RespBody.noChoices =>
      ⟨LogLevel.error, "OpenAI API returned unexpected response format"⟩
  | CallOutcome.success (RespBody.choices []) =>
      ⟨LogLevel.error, "OpenAI API returned unexpected response format"⟩
  | CallOutcome.success (RespBody.choices (c :: _)) =>
      match c.content with
      | some _ => ⟨LogLevel.info, "Received response from OpenAI"⟩
      | none => ⟨LogLevel.error, "An unexpected error occurred during OpenAI processing:"⟩

/-- Default completion endpoint (line 15). -/
def OPENAI_API_URL : String := "https://api.openai.com/v1/chat/completions"

/-- Python truthiness of the `OPENAI_API_KEY` environment value
(line 114, `if not OPENAI_API_KEY`): unset (`none`) and the empty string
are both falsy. -/
def keyConfigured : Option String → Bool
  | none => false
  | some s => !(s.isEmpty)

/-- The single outbound HTTP request of line 134, recorded with the fields
the claims are about. -/
structure HttpRequest where
  url : String
  timeoutSeconds : Nat
  userContent : String
deriving DecidableEq, Repr

/-- One emitted `message` event (line 161): addressed to a session id,
with speaker label and text. -/
structure Emit where
  sid : String
  user : String
  text : String
deriving DecidableEq, Repr

/-- Everything observable the handler did: emitted events, outbound HTTP
requests, log lines. -/
structure HandlerResult where
  emits : List Emit
  requests : List HttpRequest
  logs : List LogEntry
deriving DecidableEq, Repr

/-- The `message` event handler (lines 87-164).  `OPENAI_API_KEY` is the
environment value, `oracle` the behaviour of the (at most one) outbound
call, `sid` the sending session, and `textField` the payload's `text`
entry (`none` when the key is absent; `data.get('text', '')` then yields
`""`).  Returns the emitted events, the outbound requests made and the log
lines written. -/
def message (OPENAI_API_KEY : Option String) (oracle : CallOutcome)
    (sid : String) (textField : Option String) : HandlerResult :=
  let headLog : LogEntry := ⟨LogLevel.info, "Message from " ++ sid⟩
  let user_message := pyStrip (textField.getD "")
  if user_message = "" then
    ⟨[], [], [headLog, ⟨LogLevel.warning, "Received empty message from " ++ sid⟩]⟩
  else
    let routed : String × List HttpRequest × List LogEntry :=
      match cannedLookup (pyLower user_message) with
      | some r => (r, [], [⟨LogLevel.info, "Using canned response"⟩])
      | none =>
        if !(keyConfigured OPENAI_API_KEY) then
          (notConfiguredReply, [],
           [⟨LogLevel.info, "Sending message to OpenAI API"⟩,
            ⟨LogLevel.critical, "OPENAI_API_KEY is not set. Cannot call OpenAI API."⟩])
        else
          (handleOutcome oracle,
           [⟨OPENAI_API_URL, 20, user_message⟩],
           [⟨LogLevel.info, "Sending message to OpenAI API"⟩, outcomeLog oracle])
    let response_text := routed.1
    let emits : List Emit :=
      if response_text = "" then [] else [⟨sid, "Butler", response_text⟩]
    let tailLog : List LogEntry :=
      if response_text = "" then [] else [⟨LogLevel.info, "Sent response to " ++ sid⟩]
    ⟨emits, routed.2.1, headLog :: (routed.2.2 ++ tailLog)⟩

/-- Every reply configured in the canned-response table is a non-empty
string, so a canned hit always passes the final `if response_text:` guard. -/
theorem cannedLookup_ne_empty (k r : String) (h : cannedLookup k = some r) : r ≠ "" := by
  unfold cannedLookup at h
  cases hf : canned_responses.find? (fun p => p.1 == k) with
  | none => rw [hf] at h; exact Option.noConfusion h
  | some p =>
    rw [hf] at h
    have hmem := List.mem_of_find?_eq_some hf
    have hp : p.2 ≠ "" := by fin_cases hmem <;> decide
    simp at h
    exact h ▸ hp

/-- The transport-failure reply always starts with the fixed apology
prefix, hence is never the empty string. -/
theorem requestErrorReply_ne_empty (diag : String) : requestErrorReply diag ≠ "" := by
  intro h
  have hlen : (requestErrorReply diag).length = 0 := by rw [h]; rfl
  rw [requestErrorReply, String.length_append] at hlen
  have hp : 0 < ("I encountered an issue contacting the external service, master: " : String).length := by
    decide
  omega

/-- Claim C8: an inbound message whose text is empty or whitespace-only
after trimming (including a payload with no `text` field) produces no
reply and no outbound request; the message is not routed. -/
theorem C8_blank_not_routed (key : Option String) (o : CallOutcome) (sid : String)
    (t : Option String) (hm : pyStrip (t.getD "") = "") :
    (message key o sid t).emits = [] ∧ (message key o sid t).requests = [] := by
  constructor <;> simp [message, hm]

/-- Claim C8 witness: a payload with no `text` field and a whitespace-only
payload each yield no reply and no outbound request. -/
theorem C8_blank_not_routed_witness :
    (message (some "k") CallOutcome.timeout "s8" none).emits = [] ∧
    (message (some "k") CallOutcome.timeout "s8" (some "   ")).requests = [] :=
  ⟨(C8_blank_not_routed (some "k") CallOutcome.timeout "s8" none (by decide)).1,
   (C8_blank_not_routed (some "k") CallOutcome.timeout "s8" (some "   ") (by decide)).2⟩

/-- Claim C9: for every inbound message at most one outbound HTTP request
is issued (no retries), and every issued request carries the hard timeout
of 20 seconds. -/
theorem C9_single_bounded_request (key : Option String) (o : CallOutcome) (sid : String)
    (t : Option String) :
    (message key o sid t).requests.length ≤ 1 ∧
    (message key o sid t).requests.all (fun r => r.timeoutSeconds == 20) = true := by
  by_cases hm : pyStrip (t.getD "") = ""
  · constructor <;> simp [message, hm]
  · cases hc : cannedLookup (pyLower (pyStrip (t.getD ""))) with
    | some r =>
      have hr := cannedLookup_ne_empty _ _ hc
      constructor <;> simp [message, hm, hc, hr]
    | none =>
      cases hk : keyConfigured key with
      | false => constructor <;> simp [message, hm, hc, hk]
      | true => constructor <;> simp [message, hm, hc, hk]

/-- Claim C10: every key of the canned-response table is a fixed point of
the input normalization (trim then lowercase), and is therefore reachable
by the router's lookup, which then returns that entry's reply. -/
theorem C10_table_keys_normalized :
    (canned_responses.all (fun p => pyLower (pyStrip p.1) == p.1)) = true ∧
    (canned_responses.all (fun p => cannedLookup (pyLower (pyStrip p.1)) == some p.2)) = true := by
  decide

/-- Claim C2: whenever the trimmed, lowercased inbound text is a key of the
canned-response table, the handler emits exactly the configured reply to
the sender and makes no outbound HTTP request, regardless of whether a
credential is configured and of what the outbound service would do. -/
theorem C2_canned_hit (key : Option String) (o : CallOutcome) (sid : String)
    (t : Option String) (r : String)
    (h : cannedLookup (pyLower (pyStrip (t.getD ""))) = some r) :
    (message key o sid t).emits = [⟨sid, "Butler", r⟩] ∧
    (message key o sid t).requests = [] := by
  have hm : pyStrip (t.getD "") ≠ "" := by
    intro he
    have h0 : cannedLookup (pyLower "") = none := by decide
    rw [he, h0] at h
    exact Option.noConfusion h
  have hr := cannedLookup_ne_empty _ _ h
  constructor <;> simp [message, hm, h, hr]

/-- Claim C2 witness: input "Hello" and input "HELLO" (configured or not)
both yield the greeting reply, with no outbound request. -/
theorem C2_canned_hit_witness :
    (message none CallOutcome.timeout "s1" (some "Hello")).emits =
      [⟨"s1", "Butler", "Greetings. How may I be of service?"⟩] ∧
    (message (some "k") CallOutcome.timeout "s2" (some "HELLO")).emits =
      [⟨"s2", "Butler", "Greetings. How may I be of service?"⟩] ∧
    (message none CallOutcome.timeout "s1" (some "Hello")).requests = [] :=
  ⟨(C2_canned_hit none CallOutcome.timeout "s1" (some "Hello")
      "Greetings. How may I be of service?" (by decide)).1,
   (C2_canned_hit (some "k") CallOutcome.timeout "s2" (some "HELLO")
      "Greetings. How may I be of service?" (by decide)).1,
   (C2_canned_hit none CallOutcome.timeout "s1" (some "Hello")
      "Greetings. How may I be of service?" (by decide)).2⟩

/-- Claim C3: for a non-empty non-canned utterance with a credential
configured, when the outbound call succeeds with a well-formed body whose
first choice content trims to a non-empty string, the handler emits
exactly that trimmed content to the sender, having issued the single
outbound request. -/
theorem C3_success_trimmed (key : Option String) (sid : String) (t : Option String)
    (s : String) (cs : List Choice)
    (hm : pyStrip (t.getD "") ≠ "")
    (hc : cannedLookup (pyLower (pyStrip (t.getD ""))) = none)
    (hk : keyConfigured key = true) :
    handleOutcome (CallOutcome.success (RespBody.choices (⟨some s⟩ :: cs))) = pyStrip s ∧
    (pyStrip s ≠ "" →
      (message key (CallOutcome.success (RespBody.choices (⟨some s⟩ :: cs))) sid t).emits =
        [⟨sid, "Butler", pyStrip s⟩]) ∧
    (message key (CallOutcome.success (RespBody.choices (⟨some s⟩ :: cs))) sid t).requests =
      [⟨OPENAI_API_URL, 20, pyStrip (t.getD "")⟩] := by
  refine ⟨rfl, fun hs => ?_, ?_⟩ <;> simp [message, hm, hc, hk, handleOutcome, *]

/-- Claim C3 witness: the utterance "What is the weather" with a credential
configured and the mocked success body whose first choice content is
" Sunny today. " yields the reply "Sunny today.". -/
theorem C3_success_trimmed_witness :
    (message (some "k")
      (CallOutcome.success (RespBody.choices [⟨some " Sunny today. "⟩]))
      "s3" (some "What is the weather")).emits = [⟨"s3", "Butler", "Sunny today."⟩] := by
  rw [(C3_success_trimmed (some "k") "s3" (some "What is the weather") " Sunny today. " []
    (by decide) (by decide) (by decide)).2.1 (by decide)]
  decide

/-- Claim C5: a transport/HTTP-level failure of the outbound call
(`requests.exceptions.RequestException`, which covers connection refused,
DNS failure and the non-2xx `HTTPError` raised by `raise_for_status`) makes
the handler emit the fixed "issue contacting service" apology with the
short diagnostic embedded, to the sender only; the raw error is never
propagated. -/
theorem C5_transport_failure (key : Option String) (diag sid : String) (t : Option String)
    (hm : pyStrip (t.getD "") ≠ "")
    (hc : cannedLookup (pyLower (pyStrip (t.getD ""))) = none)
    (hk : keyConfigured key = true) :
    (message key (CallOutcome.requestError diag) sid t).emits =
      [⟨sid, "Butler", requestErrorReply diag⟩] := by
  have hne := requestErrorReply_ne_empty diag
  simp [message, hm, hc, hk, handleOutcome, hne]

/-- Claim C5 witness: a connection-refused style failure on a non-canned
utterance yields the embedded-diagnostic apology. -/
theorem C5_transport_failure_witness :
    (message (some "k") (CallOutcome.requestError "Connection refused") "s5"
      (some "weather")).emits =
      [⟨"s5", "Butler",
        "I encountered an issue contacting the external service, master: Connection refused"⟩] := by
  rw [C5_transport_failure (some "k") "Connection refused" "s5" (some "weather")
    (by decide) (by decide) (by decide)]
  decide

/-- Claim C6: for a non-empty non-canned utterance with no credential
configured, the handler emits the fixed "service not configured" apology,
makes no outbound request, and logs a critical configuration error. -/
theorem C6_not_configured (key : Option String) (o : CallOutcome) (sid : String)
    (t : Option String)
    (hm : pyStrip (t.getD "") ≠ "")
    (hc : cannedLookup (pyLower (pyStrip (t.getD ""))) = none)
    (hk : keyConfigured key = false) :
    (message key o sid t).emits = [⟨sid, "Butler", notConfiguredReply⟩] ∧
    (message key o sid t).requests = [] ∧
    (⟨LogLevel.critical, "OPENAI_API_KEY is not set. Cannot call OpenAI API."⟩ : LogEntry) ∈
      (message key o sid t).logs := by
  have hne : notConfiguredReply ≠ "" := by decide
  refine ⟨?_, ?_, ?_⟩ <;> simp [message, hm, hc, hk, hne, notConfiguredReply]

/-- Claim C6 witness: with the credential unset, a non-canned utterance
yields the "not configured" apology and no outbound request. -/
theorem C6_not_configured_witness :
    (message none CallOutcome.timeout "s6" (some "weather")).emits =
      [⟨"s6", "Butler", "Master, the external service key is not configured."⟩] ∧
    (message none CallOutcome.timeout "s6" (some "weather")).requests = [] :=
  ⟨(C6_not_configured none CallOutcome.timeout "s6" (some "weather")
      (by decide) (by decide) (by decide)).1,
   (C6_not_configured none CallOutcome.timeout "s6" (some "weather")
      (by decide) (by decide) (by decide)).2.1⟩

/-- Claim C7: an outbound call that exceeds the timeout makes the handler
emit the fixed "took too long" apology to the sender; the timeout is not
raised to the caller. -/
theorem C7_timeout_apology (key : Option String) (sid : String) (t : Option String)
    (hm : pyStrip (t.getD "") ≠ "")
    (hc : cannedLookup (pyLower (pyStrip (t.getD ""))) = none)
    (hk : keyConfigured key = true) :
    (message key CallOutcome.timeout sid t).emits = [⟨sid, "Butler", timeoutReply⟩] := by
  have hne : timeoutReply ≠ "" := by decide
  simp [message, hm, hc, hk, handleOutcome, hne]

/-- Claim C7 witness: a timed-out call on a non-canned utterance yields the
"took too long" apology. -/
theorem C7_timeout_apology_witness :
    (message (some "k") CallOutcome.timeout "s7" (some "weather")).emits =
      [⟨"s7", "Butler",
        "Master, the external service took too long to respond. Pray, try again."⟩] := by
  rw [C7_timeout_apology (some "k") "s7" (some "weather") (by decide) (by decide) (by decide)]
  decide

/-- Claim C4 counterexample: a received body whose `choices` array is
non-empty but whose first choice lacks `message.content` is mapped to the
generic internal-error apology (the `KeyError` falls into the blanket
`except Exception` handler), not to the "uninterpretable response"
apology — refuting the claim that every received-but-malformed body maps
to the "uninterpretable response" apology and never to the generic one. -/
theorem C4_missing_content_counterexample :
    handleOutcome (CallOutcome.success (RespBody.choices [⟨none⟩])) = internalErrorReply ∧
    internalErrorReply ≠ uninterpretableReply ∧
    (message (some "k") (CallOutcome.success (RespBody.choices [⟨none⟩])) "s4"
      (some "weather")).emits = [⟨"s4", "Butler", internalErrorReply⟩] := by
  refine ⟨rfl, by decide, ?_⟩
  decide

/-- Claim C4 amended: a received body that is falsy, lacks a `choices` key,
or has an empty `choices` array is deterministically mapped to the fixed
"uninterpretable response" apology; but a body whose first choice lacks
`message.content` is mapped to the generic internal-error apology instead. -/
theorem C4_malformed_body (b : RespBody) (cs : List Choice)
    (hb : b = RespBody.falsy ∨ b = RespBody.noChoices ∨ b = RespBody.choices []) :
    handleOutcome (CallOutcome.success b) = uninterpretableReply ∧
    handleOutcome (CallOutcome.success (RespBody.choices (⟨none⟩ :: cs))) =
      internalErrorReply := by
  rcases hb with h | h | h <;> subst h <;> exact ⟨rfl, rfl⟩

/-- Claim C4 amended witness: a truthy body without a `choices` key yields
the "uninterpretable response" apology, and a first choice lacking
`message.content` yields the generic internal-error apology. -/
theorem C4_malformed_body_witness :
    handleOutcome (CallOutcome.success RespBody.noChoices) = uninterpretableReply ∧
    handleOutcome (CallOutcome.success (RespBody.choices [⟨none⟩])) = internalErrorReply :=
  C4_malformed_body RespBody.noChoices [] (Or.inr (Or.inl rfl))

/-- Claim C1 counterexample: the inbound text "weather" is non-empty after
trimming, yet when the outbound call succeeds with a first-choice content
of "  " (which trims to the empty string), the final
`if response_text:` guard is falsy and the handler emits zero replies —
refuting "exactly one reply for every non-empty inbound message". -/
theorem C1_blank_content_counterexample :
    pyStrip "weather" ≠ "" ∧
    (message (some "k") (CallOutcome.success (RespBody.choices [⟨some "  "⟩])) "s1"
      (some "weather")).emits = [] := by
  constructor <;> decide

/-- Claim C1 amended: for every inbound message that is non-empty after
trimming, the handler emits at most one reply, every emitted reply is a
non-empty string addressed to the sending session only and labelled
"Butler", the handler (a total function) never throws, and exactly one
reply is emitted unless the outbound call succeeded with a first-choice
content that trims to the empty string, in which case no reply is
emitted. -/
theorem C1_one_reply_to_sender (key : Option String) (o : CallOutcome) (sid : String)
    (t : Option String) (hm : pyStrip (t.getD "") ≠ "") :
    (∀ e ∈ (message key o sid t).emits, e.sid = sid ∧ e.user = "Butler" ∧ e.text ≠ "") ∧
    (message key o sid t).emits.length ≤ 1 ∧
    ((message key o sid t).emits.length = 1 ∨
      ∃ s cs, o = CallOutcome.success (RespBody.choices (⟨some s⟩ :: cs)) ∧ pyStrip s = "") := by
  cases hc : cannedLookup (pyLower (pyStrip (t.getD ""))) with
  | some r =>
    have hr := cannedLookup_ne_empty _ _ hc
    refine ⟨?_, ?_, Or.inl ?_⟩ <;> simp [message, hm, hc, hr]
  | none =>
    cases hk : keyConfigured key with
    | false =>
      have hne : notConfiguredReply ≠ "" := by decide
      refine ⟨?_, ?_, Or.inl ?_⟩ <;> simp [message, hm, hc, hk, hne]
    | true =>
      cases o with
      | timeout =>
        have hne : timeoutReply ≠ "" := by decide
        refine ⟨?_, ?_, Or.inl ?_⟩ <;> simp [message, hm, hc, hk, handleOutcome, hne]
      | requestError diag =>
        have hne := requestErrorReply_ne_empty diag
        refine ⟨?_, ?_, Or.inl ?_⟩ <;> simp [message, hm, hc, hk, handleOutcome, hne]
      | success b =>
        have hneU : uninterpretableReply ≠ "" := by decide
        have hneI : internalErrorReply ≠ "" := by decide
        cases b with
        | falsy =>
          refine ⟨?_, ?_, Or.inl ?_⟩ <;> simp [message, hm, hc, hk, handleOutcome, hneU]
        | noChoices =>
          refine ⟨?_, ?_, Or.inl ?_⟩ <;> simp [message, hm, hc, hk, handleOutcome, hneU]
        | choices cs0 =>
          cases cs0 with
          | nil =>
            refine ⟨?_, ?_, Or.inl ?_⟩ <;> simp [message, hm, hc, hk, handleOutcome, hneU]
          | cons c rest =>
            obtain ⟨co⟩ := c
            cases co with
            | none =>
              refine ⟨?_, ?_, Or.inl ?_⟩ <;>
                simp [message, hm, hc, hk, handleOutcome, hneI]
            | some s =>
              by_cases hs : pyStrip s = ""
              · refine ⟨?_, ?_, Or.inr ⟨s, rest, rfl, hs⟩⟩ <;>
                  simp [message, hm, hc, hk, handleOutcome, hs]
              · refine ⟨?_, ?_, Or.inl ?_⟩ <;>
                  simp [message, hm, hc, hk, handleOutcome, hs]

/-- Claim C1 amended witness: the non-canned utterance "hey" with no
credential configured produces exactly one emitted reply. -/
theorem C1_one_reply_to_sender_witness :
    (message none CallOutcome.timeout "s9" (some "hey")).emits.length = 1 :=
  ((C1_one_reply_to_sender none CallOutcome.timeout "s9" (some "hey")
      (by decide)).2.2).resolve_right
    (by rintro ⟨s, cs, h, -⟩; exact CallOutcome.noConfusion h)

end Server
